import Mathlib

/-!
# Verification of the credit-card-fraud ETL notebook

A shallow embedding of the PySpark pipeline in
`src/credit_card_fraud_analysis.ipynb`.  A dataframe row is an association
list from column name to value; each notebook cell becomes a total function
`Row → Row` (Spark's `withColumn` / `drop` act per row), and the dataframe
transformations are `List.map` of those per-row functions, which is exactly
what the column expressions of the notebook do (no aggregation, join, or
filter occurs before the visualization cell).

The engine primitives the notebook calls — `from_json` with an all-string
schema, `split` with the regex character class `[,@/]`, `cast` to double /
int, `to_timestamp`, `from_utc_timestamp`, `sha2(·, 256)` — are embedded
below from their Spark semantics: schema-driven JSON decoding is a real
JSON parser (fuelled recursive descent), casts are decimal parsers
returning `Option`, and `sha2` is a full SHA-256 over the UTF-8 bytes.
Machine doubles appear in the pipeline only as the intermediate of
`(col / 1000000).cast("timestamp")`; that composition is modelled in exact
rational arithmetic (`Rat`), which agrees with IEEE doubles on every epoch
value below 2^53 microseconds divided by 10^6 up to sub-microsecond
rounding that the timestamp cast discards.
-/

namespace FraudPipeline

/-- A Spark SQL value as it occurs in this pipeline.  The two `from_json`
schemas of the notebook declare every field as `StringType`, so a decoded
struct is a record of nullable strings (`record`); `split` produces an array
of strings (`strArr`); timestamps are epoch microseconds, the internal
representation of Spark's zone-less `TimestampType`. -/
inductive Val where
  | null
  | str (s : String)
  | int (n : Int)
  | double (q : Rat)
  | bool (b : Bool)
  | ts (micros : Int)
  | record (fields : List (String × Option String))
  | strArr (xs : List String)
  deriving DecidableEq, Repr

/-- One dataframe row: column name ↦ value, in schema order. -/
abbrev Row := List (String × Val)

/-- Value of a column, `null` when absent (a referenced column always
exists in the rows the notebook builds). -/
def getCol : Row → String → Val
  | [], _ => Val.null
  | p :: ps, n => if p.1 == n then p.2 else getCol ps n

/-- Whether the schema has a column of this name. -/
def hasCol : Row → String → Bool
  | [], _ => false
  | p :: ps, n => p.1 == n || hasCol ps n

/-- Spark `df.withColumn(n, e)`: replace the column in place when the name
exists, otherwise append it at the end of the schema. -/
def setCol (n : String) (v : Val) : Row → Row
  | [] => [(n, v)]
  | p :: ps => if p.1 == n then (n, v) :: ps else p :: setCol n v ps

/-- Spark `df.drop(names…)`: remove the named columns from the schema. -/
def dropCols (ns : List String) (r : Row) : Row :=
  r.filter (fun p => !ns.contains p.1)

/-- Nested field access `col("struct.field")`: a field of a null struct is
null, as is a field the decoder set to null. -/
def getField (v : Val) (f : String) : Val :=
  match v with
  | Val.record fields =>
      match fields.find? (fun p => p.1 == f) with
      | some (_, some s) => Val.str s
      | some (_, none) => Val.null
      | none => Val.null
  | _ => Val.null

/-! ## `split(col, "[,@/]")` — the name splitter of the flatten cell -/

/-- The delimiter class of the regex `[,@/]`. -/
def isDelim (c : Char) : Bool := c == ',' || c == '@' || c == '/'

/-- Regex split on `[,@/]` with Spark's default limit `-1`: every field is
kept, including trailing empty ones (`"a," ↦ ["a", ""]`, `"" ↦ [""]`). -/
def splitDelims (s : String) : List String :=
  (s.data.foldr
    (fun c acc =>
      if isDelim c then [] :: acc
      else
        match acc with
        | h :: t => (c :: h) :: t
        | [] => [[c]])
    [[]]).map String.mk

/-- Indexing `split(col, "[,@/]")[i]` — `getItem` past the end of the array, or on a
null input, is null. -/
def splitGet (v : Val) (i : Nat) : Val :=
  match v with
  | Val.str s =>
      match (splitDelims s).get? i with
      | some x => Val.str x
      | none => Val.null
  | _ => Val.null

/-! ## `from_json` — schema-driven JSON decoding

Both schemas of the notebook (`personal_schema`, `address_schema`) declare
every field as `StringType`, so decoding a row needs exactly: parse the
string as a JSON object, and read each schema field back as a nullable
string.  The parser below is a fuelled recursive descent over the JSON
grammar (RFC 8259): strings with escapes, numbers, literals, and nested
arrays/objects (validated, and rendered back as text when they sit under a
`StringType` field, as Jackson does — the rendering here keeps the raw
source slice, which can differ from Jackson's re-serialization only in
whitespace; no claim depends on that corner).  Any violation of the
grammar makes the whole decode fail, which is Spark's PERMISSIVE-mode
null-struct outcome. -/

/-- What a JSON object field becomes under a `StringType` schema entry:
JSON `null` stays null, a string literal is decoded, and any other value
is kept as text. -/
inductive JField where
  | fnull
  | fstr (s : String)
  | ftext (s : String)
  deriving DecidableEq, Repr

/-- JSON insignificant whitespace. -/
def skipWs : List Char → List Char
  | c :: cs => if c == ' ' || c == '\t' || c == '\n' || c == '\r' then skipWs cs else c :: cs
  | [] => []

/-- Value of a hex digit. -/
def hexVal (c : Char) : Option Nat :=
  if '0' ≤ c ∧ c ≤ '9' then some (c.toNat - '0'.toNat)
  else if 'a' ≤ c ∧ c ≤ 'f' then some (c.toNat - 'a'.toNat + 10)
  else if 'A' ≤ c ∧ c ≤ 'F' then some (c.toNat - 'A'.toNat + 10)
  else none

/-- A single-character escape: table from RFC 8259 §7. -/
def escChar (c : Char) : Option Char :=
  [('"', '"'), ('\\', '\\'), ('/', '/'), ('b', Char.ofNat 8),
   ('f', Char.ofNat 12), ('n', '\n'), ('r', Char.ofNat 13),
   ('t', '\t')].lookup c

/-- Body of a JSON string literal, after the opening quote: the decoded
characters and the input past the closing quote.  Unescaped control
characters are rejected; `\uXXXX` becomes the code point directly
(surrogate-pair recombination is not modelled — no claim reaches it). -/
def parseStringBody : List Char → Option (List Char × List Char)
  | [] => none
  | '"' :: rest => some ([], rest)
  | '\\' :: rest =>
      match rest with
      | 'u' :: h1 :: h2 :: h3 :: h4 :: rest' =>
          match hexVal h1, hexVal h2, hexVal h3, hexVal h4 with
          | some a, some b, some c, some d =>
              (parseStringBody rest').map
                (fun p => (Char.ofNat (((a * 16 + b) * 16 + c) * 16 + d) :: p.1, p.2))
          | _, _, _, _ => none
      | e :: rest' =>
          match escChar e with
          | some c => (parseStringBody rest').map (fun p => (c :: p.1, p.2))
          | none => none
      | [] => none
  | c :: rest =>
      if c.toNat < 32 then none
      else (parseStringBody rest).map (fun p => (c :: p.1, p.2))

/-- Longest digit prefix. -/
def takeDigits : List Char → List Char × List Char
  | [] => ([], [])
  | c :: cs =>
      if c.isDigit then
        let p := takeDigits cs
        (c :: p.1, p.2)
      else ([], c :: cs)

/-- Integer part of a JSON number: `0`, or a nonzero digit then digits. -/
def parseIntPart : List Char → Option (List Char × List Char)
  | '0' :: cs => some (['0'], cs)
  | c :: cs =>
      if c.isDigit then
        let p := takeDigits cs
        some (c :: p.1, p.2)
      else none
  | [] => none

/-- Optional fraction part `.digits`. -/
def parseFrac : List Char → Option (List Char × List Char)
  | '.' :: cs =>
      match takeDigits cs with
      | ([], _) => none
      | (ds, r) => some ('.' :: ds, r)
  | cs => some ([], cs)

/-- Optional exponent part `[eE][+-]?digits`. -/
def parseExp : List Char → Option (List Char × List Char)
  | e :: cs =>
      if e == 'e' || e == 'E' then
        let sp : List Char × List Char :=
          match cs with
          | c :: cs' => if c == '+' || c == '-' then ([c], cs') else ([], c :: cs')
          | [] => ([], [])
        match takeDigits sp.2 with
        | ([], _) => none
        | (ds, r) => some (e :: (sp.1 ++ ds), r)
      else some ([], e :: cs)
  | [] => some ([], [])

/-- A JSON number, returned as its source text. -/
def parseNumber (cs : List Char) : Option (List Char × List Char) :=
  let sp : List Char × List Char :=
    match cs with
    | '-' :: r => (['-'], r)
    | _ => ([], cs)
  match parseIntPart sp.2 with
  | none => none
  | some (ip, cs2) =>
      match parseFrac cs2 with
      | none => none
      | some (fp, cs3) =>
          match parseExp cs3 with
          | none => none
          | some (ep, cs4) => some (sp.1 ++ ip ++ fp ++ ep, cs4)

mutual

/-- One JSON value read as a `StringType` field: leading whitespace, then a
string / literal / number / array / object.  Composite values are
validated in full and kept as their source text. -/
def parseFieldVal : Nat → List Char → Option (JField × List Char)
  | 0, _ => none
  | fuel + 1, cs0 =>
      let cs := skipWs cs0
      match cs with
      | '"' :: r => (parseStringBody r).map (fun p => (JField.fstr (String.mk p.1), p.2))
      | 'n' :: 'u' :: 'l' :: 'l' :: r => some (JField.fnull, r)
      | 't' :: 'r' :: 'u' :: 'e' :: r => some (JField.ftext "true", r)
      | 'f' :: 'a' :: 'l' :: 's' :: 'e' :: r => some (JField.ftext "false", r)
      | '[' :: r =>
          match skipArr fuel r with
          | some rest => some (JField.ftext (String.mk (cs.take (cs.length - rest.length))), rest)
          | none => none
      | '\x7b' :: r =>
          match parseObjFields fuel r with
          | some (_, rest) =>
              some (JField.ftext (String.mk (cs.take (cs.length - rest.length))), rest)
          | none => none
      | _ =>
          match parseNumber cs with
          | some (txt, rest) => some (JField.ftext (String.mk txt), rest)
          | none => none

/-- Rest of an array, after the opening bracket. -/
def skipArr : Nat → List Char → Option (List Char)
  | 0, _ => none
  | fuel + 1, cs0 =>
      match skipWs cs0 with
      | ']' :: r => some r
      | cs => skipArrItems fuel cs

/-- One or more comma-separated array items, then the closing bracket. -/
def skipArrItems : Nat → List Char → Option (List Char)
  | 0, _ => none
  | fuel + 1, cs =>
      match parseFieldVal fuel cs with
      | none => none
      | some (_, rest) =>
          match skipWs rest with
          | ',' :: r2 => skipArrItems fuel r2
          | ']' :: r2 => some r2
          | _ => none

/-- Members of an object, after the opening brace: the field list (source
order, duplicates kept) and the input past the closing brace. -/
def parseObjFields : Nat → List Char → Option (List (String × JField) × List Char)
  | 0, _ => none
  | fuel + 1, cs0 =>
      match skipWs cs0 with
      | '\x7d' :: r => some ([], r)
      | cs => parseObjItems fuel cs

/-- One or more `"key": value` members, then the closing brace. -/
def parseObjItems : Nat → List Char → Option (List (String × JField) × List Char)
  | 0, _ => none
  | fuel + 1, cs0 =>
      match skipWs cs0 with
      | '"' :: r =>
          match parseStringBody r with
          | some (key, rest) =>
              match skipWs rest with
              | ':' :: r2 =>
                  match parseFieldVal fuel r2 with
                  | some (v, rest2) =>
                      match skipWs rest2 with
                      | ',' :: r3 =>
                          match parseObjItems fuel r3 with
                          | some (kvs, rest3) => some ((String.mk key, v) :: kvs, rest3)
                          | none => none
                      | '\x7d' :: r3 => some ([(String.mk key, v)], r3)
                      | _ => none
                  | none => none
              | _ => none
          | none => none
      | _ => none

end

/-- Last binding of a key in a member list (Jackson assigns members in
order, so on duplicate keys the last one wins). -/
def lookupLastField (kvs : List (String × JField)) (f : String) : Option JField :=
  (kvs.reverse.find? (fun p => p.1 == f)).map (fun p => p.2)

/-- A `StringType` schema entry read from a decoded member. -/
def fieldToOptString : Option JField → Option String
  | none => none
  | some JField.fnull => none
  | some (JField.fstr s) => some s
  | some (JField.ftext t) => some t

/-- The whole string as one JSON object (nothing but whitespace may
follow); `none` on any grammar violation or a non-object root. -/
def parseTopObject (s : String) : Option (List (String × JField)) :=
  match skipWs s.data with
  | '\x7b' :: r =>
      match parseObjFields (2 * s.length + 4) r with
      | some (kvs, rest) => if (skipWs rest).isEmpty then some kvs else none
      | none => none
  | _ => none

/-- Decoding `from_json(s, schema)` on a string input: project the schema's fields
from the parsed object; a malformed string yields the null struct —
Spark's PERMISSIVE decode of a malformed row. -/
def decodeJsonObject (schema : List String) (s : String) : Val :=
  match parseTopObject s with
  | some kvs =>
      Val.record (schema.map (fun f => (f, fieldToOptString (lookupLastField kvs f))))
  | none => Val.null

/-- Column-level `from_json(col, schema)`: a null (or non-string) input decodes to the
null struct. -/
def fromJsonVal (schema : List String) (v : Val) : Val :=
  match v with
  | Val.str s => decodeJsonObject schema s
  | _ => Val.null

/-- The eight `StringType` fields of `personal_schema`. -/
def personalSchemaFields : List String :=
  ["person_name", "gender", "address", "lat", "long", "city_pop", "job", "dob"]

/-- The four `StringType` fields of `address_schema`. -/
def addressSchemaFields : List String :=
  ["street", "city", "state", "zip"]

/-! ## Numeric casts — `cast("double")`, `cast("int")`

Spark's non-ANSI string→numeric cast trims the string and parses it;
anything unparseable becomes null, never an error.  The double cast is
modelled in exact rational arithmetic over the plain decimal grammar
(sign, digits, optional fraction, optional exponent); IEEE rounding,
`Infinity`/`NaN` spellings and hex floats are below the resolution of the
claims.  The int cast accepts an optional sign and digits and nulls out on
32-bit overflow, as `UTF8String.toInt` does. -/

/-- Trim leading/trailing chars ≤ space, as the cast's input cleanup. -/
def trimChars (cs : List Char) : List Char :=
  ((cs.dropWhile (fun c => c.toNat ≤ 32)).reverse.dropWhile (fun c => c.toNat ≤ 32)).reverse

/-- Digits to a number, left to right. -/
def digitsToNat (ds : List Char) : Nat :=
  ds.foldl (fun acc c => acc * 10 + (c.toNat - '0'.toNat)) 0

/-- Spark `cast(col("…"), "double")` on a string: `some` exact value, or `none`
for a non-numeric string. -/
def castDoubleStr (s : String) : Option Rat :=
  let cs := trimChars s.data
  let sgn : Rat × List Char :=
    match cs with
    | '-' :: r => (-1, r)
    | '+' :: r => (1, r)
    | _ => (1, cs)
  let ip := takeDigits sgn.2
  let fp : Option (List Char × List Char) :=
    match ip.2 with
    | '.' :: r => let d := takeDigits r; some (d.1, d.2)
    | r => some ([], r)
  match fp with
  | none => none
  | some (fds, rest) =>
      if ip.1.isEmpty ∧ fds.isEmpty then none
      else
        let mant : Rat :=
          (digitsToNat ip.1 : Rat) + (digitsToNat fds : Rat) / ((10 : Rat) ^ fds.length)
        match rest with
        | [] => some (sgn.1 * mant)
        | e :: r =>
            if e == 'e' || e == 'E' then
              let es : Int × List Char :=
                match r with
                | '-' :: r' => (-1, r')
                | '+' :: r' => (1, r')
                | _ => (1, r)
              let eds := takeDigits es.2
              if eds.1.isEmpty ∨ ¬eds.2.isEmpty then none
              else
                let ex : Rat := (10 : Rat) ^ digitsToNat eds.1
                some (sgn.1 * mant * (if es.1 = 1 then ex else 1 / ex))
            else none

/-- Spark `cast(col("…"), "int")` on a string: sign and digits, null outside the
32-bit range or on any other shape. -/
def castIntStr (s : String) : Option Int :=
  let cs := trimChars s.data
  let sgn : Int × List Char :=
    match cs with
    | '-' :: r => (-1, r)
    | '+' :: r => (1, r)
    | _ => (1, cs)
  let ds := takeDigits sgn.2
  if ds.1.isEmpty ∨ ¬ds.2.isEmpty then none
  else
    let n : Int := sgn.1 * (digitsToNat ds.1 : Int)
    if -2147483648 ≤ n ∧ n ≤ 2147483647 then some n else none

/-- The casts lifted to column values, as `.cast` behaves in the flatten
cell: a null (or absent struct field) stays null. -/
def castDoubleVal (v : Val) : Val :=
  match v with
  | Val.str s =>
      match castDoubleStr s with
      | some q => Val.double q
      | none => Val.null
  | _ => Val.null

/-- Spark `cast("int")` on a column value. -/
def castIntVal (v : Val) : Val :=
  match v with
  | Val.str s =>
      match castIntStr s with
      | some n => Val.int n
      | none => Val.null
  | _ => Val.null

/-! ## `sha2(col, 256)` — the masking primitive

A complete SHA-256 (FIPS 180-4) over the UTF-8 bytes of the string, with
the digest rendered as 64 lowercase hex characters, exactly what Spark's
`sha2(e, 256)` returns for a string column. -/

/-- Truncate to a 32-bit word. -/
def w32 (n : Nat) : Nat := n % 4294967296

/-- Right rotation of a 32-bit word. -/
def rotr32 (k n : Nat) : Nat := w32 ((n >>> k) ||| (n <<< (32 - k)))

/-- FIPS 180-4 `Ch`. -/
def shaCh (x y z : Nat) : Nat := (x &&& y) ^^^ ((4294967295 ^^^ x) &&& z)

/-- FIPS 180-4 `Maj`. -/
def shaMaj (x y z : Nat) : Nat := (x &&& y) ^^^ (x &&& z) ^^^ (y &&& z)

/-- FIPS 180-4 `Σ₀`. -/
def bigSigma0 (x : Nat) : Nat := rotr32 2 x ^^^ rotr32 13 x ^^^ rotr32 22 x

/-- FIPS 180-4 `Σ₁`. -/
def bigSigma1 (x : Nat) : Nat := rotr32 6 x ^^^ rotr32 11 x ^^^ rotr32 25 x

/-- FIPS 180-4 `σ₀`. -/
def smallSigma0 (x : Nat) : Nat := rotr32 7 x ^^^ rotr32 18 x ^^^ (x >>> 3)

/-- FIPS 180-4 `σ₁`. -/
def smallSigma1 (x : Nat) : Nat := rotr32 17 x ^^^ rotr32 19 x ^^^ (x >>> 10)

/-- The 64 SHA-256 round constants (FIPS 180-4 table, decimal). -/
def shaK : List Nat :=
  [1116352408, 1899447441, 3049323471, 3921009573, 961987163, 1508970993,
   2453635748, 2870763221, 3624381080, 310598401, 607225278, 1426881987,
   1925078388, 2162078206, 2614888103, 3248222580, 3835390401, 4022224774,
   264347078, 604807628, 770255983, 1249150122, 1555081692, 1996064986,
   2554220882, 2821834349, 2952996808, 3210313671, 3336571891, 3584528711,
   113926993, 338241895, 666307205, 773529912, 1294757372, 1396182291,
   1695183700, 1986661051, 2177026350, 2456956037, 2730485921, 2820302411,
   3259730800, 3345764771, 3516065817, 3600352804, 4094571909, 275423344,
   430227734, 506948616, 659060556, 883997877, 958139571, 1322822218,
   1537002063, 1747873779, 1955562222, 2024104815, 2227730452, 2361852424,
   2428436474, 2756734187, 3204031479, 3329325298]

/-- Hash state / digest: eight 32-bit words. -/
structure Words8 where
  a : Nat
  b : Nat
  c : Nat
  d : Nat
  e : Nat
  f : Nat
  g : Nat
  h : Nat
  deriving DecidableEq, Repr

/-- The SHA-256 initial hash value (FIPS 180-4, decimal). -/
def shaH0 : Words8 :=
  ⟨1779033703, 3144134277, 1013904242, 2773480762, 1359893119, 2600822924,
   528734635, 1541459225⟩

/-- Value `v` as `n` big-endian bytes. -/
def beBytes (n : Nat) (v : Nat) : List Nat :=
  (List.range n).map (fun i => (v >>> (8 * (n - 1 - i))) % 256)

/-- FIPS 180-4 padding: `0x80`, zeros to 56 mod 64, then the bit length as
eight big-endian bytes. -/
def sha256Pad (msg : List Nat) : List Nat :=
  let l := msg.length
  let k := (120 - ((l + 1) % 64)) % 64
  msg ++ 128 :: List.replicate k 0 ++ beBytes 8 (8 * l)

/-- Four bytes at a time into big-endian 32-bit words. -/
def bytesToWords : List Nat → List Nat
  | b0 :: b1 :: b2 :: b3 :: rest =>
      (((b0 * 256 + b1) * 256 + b2) * 256 + b3) :: bytesToWords rest
  | _ => []

/-- The word list in 16-word blocks. -/
def toBlocks (ws : List Nat) : List (List Nat) :=
  if h : ws = [] then []
  else ws.take 16 :: toBlocks (ws.drop 16)
termination_by ws.length
decreasing_by
  simp only [List.length_drop]
  have hp : 0 < ws.length := List.length_pos.mpr h
  omega

/-- Extend a 16-word block by `n` message-schedule words. -/
def extendSchedule (ws : List Nat) : Nat → List Nat
  | 0 => ws
  | n + 1 =>
      let prev := extendSchedule ws n
      let t := prev.length
      prev ++ [w32 (smallSigma1 (prev.getD (t - 2) 0) + prev.getD (t - 7) 0 +
        smallSigma0 (prev.getD (t - 15) 0) + prev.getD (t - 16) 0)]

/-- One compression round; `kw` is `K[t] + W[t]` reduced to 32 bits. -/
def sha256Round (s : Words8) (kw : Nat) : Words8 :=
  let t1 := w32 (s.h + bigSigma1 s.e + shaCh s.e s.f s.g + kw)
  let t2 := w32 (bigSigma0 s.a + shaMaj s.a s.b s.c)
  ⟨w32 (t1 + t2), s.a, s.b, s.c, w32 (s.d + t1), s.e, s.f, s.g⟩

/-- Compress one 512-bit block into the hash state. -/
def processBlock (st : Words8) (block : List Nat) : Words8 :=
  let ws := extendSchedule block 48
  let s := (List.zipWith (fun k w => w32 (k + w)) shaK ws).foldl sha256Round st
  ⟨w32 (s.a + st.a), w32 (s.b + st.b), w32 (s.c + st.c), w32 (s.d + st.d),
   w32 (s.e + st.e), w32 (s.f + st.f), w32 (s.g + st.g), w32 (s.h + st.h)⟩

/-- SHA-256 digest of a byte string. -/
def sha256Digest (msg : List Nat) : Words8 :=
  (toBlocks (bytesToWords (sha256Pad msg))).foldl processBlock shaH0

/-- The sixteen lowercase hex digits. -/
def hexChars : List Char := "0123456789abcdef".data

/-- Lowercase hex digit of the low nibble. -/
def hexChar (n : Nat) : Char := hexChars.getD (n % 16) '0'

/-- A 32-bit word as eight hex characters. -/
def wordHex (w : Nat) : List Char :=
  [hexChar (w >>> 28), hexChar (w >>> 24), hexChar (w >>> 20), hexChar (w >>> 16),
   hexChar (w >>> 12), hexChar (w >>> 8), hexChar (w >>> 4), hexChar w]

/-- The digest as 64 lowercase hex characters. -/
def digestHex (d : Words8) : String :=
  String.mk (wordHex d.a ++ wordHex d.b ++ wordHex d.c ++ wordHex d.d ++ wordHex d.e ++
    wordHex d.f ++ wordHex d.g ++ wordHex d.h)

/-- UTF-8 encoding of one character. -/
def utf8Bytes (c : Char) : List Nat :=
  let n := c.toNat
  if n < 128 then [n]
  else if n < 2048 then [192 + n / 64, 128 + n % 64]
  else if n < 65536 then [224 + n / 4096, 128 + n / 64 % 64, 128 + n % 64]
  else [240 + n / 262144, 128 + n / 4096 % 64, 128 + n / 64 % 64, 128 + n % 64]

/-- UTF-8 bytes of a string. -/
def strBytes (s : String) : List Nat := (s.data.map utf8Bytes).flatten

/-- Spark `sha2(s, 256)`: the SHA-256 of the UTF-8 bytes as lowercase hex. -/
def sha256hex (s : String) : String := digestHex (sha256Digest (strBytes s))

/-- Spark `sha2(col, 256)` on a column value: null in, null out.  (The loaded
`cc_num` is a string column; `sha2` is not defined on other types, so they
map to null here and no claim exercises them.) -/
def sha2Val (v : Val) : Val :=
  match v with
  | Val.str s => Val.str (sha256hex s)
  | _ => Val.null

/-! ## Timestamps

A Spark `TimestampType` value is a zone-less instant stored as epoch
microseconds.  `(col / 1000000).cast("timestamp")` divides the epoch
microseconds by 10⁶ (a double in Spark, exact rational here) and
truncates back to microseconds — the round trip is the identity on every
input the pipeline can see.  `from_utc_timestamp(ts, "Asia/Kuala_Lumpur")`
then takes the UTC wall-clock reading of the instant and reinterprets that
reading in Kuala Lumpur, i.e. it adds the zone offset: the resulting
timestamp's plain (UTC) rendering shows the Kuala Lumpur local time of the
original instant.  Kuala Lumpur is UTC+8 with no daylight saving (fixed
since 1982; every instant a claim touches is far later).  Calendar
renderings use the proleptic-Gregorian civil algorithms, as java.time
does. -/

/-- The Asia/Kuala_Lumpur zone offset, +8:00, in microseconds. -/
def klOffsetMicros : Int := 28800000000

/-- Spark `from_utc_timestamp(·, "Asia/Kuala_Lumpur")` on the raw microseconds:
shift by the zone offset so the result's plain rendering reads the
Kuala Lumpur local time. -/
def fromUtcTimestampMicros (t : Int) : Int := t + klOffsetMicros

/-- Truncate a rational towards zero, as `Double.toLong` does. -/
def ratTrunc (q : Rat) : Int := Int.tdiv q.num (q.den : Int)

/-- Spark `(col / 1000000).cast("timestamp")`: seconds (fractional) to epoch
microseconds. -/
def secondsToMicros (q : Rat) : Int := ratTrunc (q * 1000000)

/-- The notebook's `convert_epoch_microseconds`: divide the epoch
microseconds by 10⁶, cast to timestamp, and `from_utc_timestamp` into
Asia/Kuala_Lumpur; null propagates. -/
def convert_epoch_microseconds (v : Val) : Val :=
  match v with
  | Val.int m => Val.ts (fromUtcTimestampMicros (secondsToMicros ((m : Rat) / 1000000)))
  | _ => Val.null

/-- A calendar reading of an instant: proleptic-Gregorian date and
time-of-day. -/
structure CivilTime where
  year : Int
  month : Int
  day : Int
  hour : Int
  minute : Int
  second : Int
  deriving DecidableEq, Repr

/-- Civil date from days since 1970-01-01 (proleptic Gregorian). -/
def civilFromDays (z0 : Int) : Int × Int × Int :=
  let z := z0 + 719468
  let era := Int.fdiv z 146097
  let doe := z - era * 146097
  let yoe := Int.fdiv (doe - Int.fdiv doe 1460 + Int.fdiv doe 36524 - Int.fdiv doe 146096) 365
  let y := yoe + era * 400
  let doy := doe - (365 * yoe + Int.fdiv yoe 4 - Int.fdiv yoe 100)
  let mp := Int.fdiv (5 * doy + 2) 153
  let d := doy - Int.fdiv (153 * mp + 2) 5 + 1
  let m := if mp < 10 then mp + 3 else mp - 9
  (if m ≤ 2 then y + 1 else y, m, d)

/-- Days since 1970-01-01 of a civil date (proleptic Gregorian). -/
def daysFromCivil (y m d : Int) : Int :=
  let y' := if m ≤ 2 then y - 1 else y
  let era := Int.fdiv y' 400
  let yoe := y' - era * 400
  let mp := if m > 2 then m - 3 else m + 9
  let doy := Int.fdiv (153 * mp + 2) 5 + d - 1
  let doe := yoe * 365 + Int.fdiv yoe 4 - Int.fdiv yoe 100 + doy
  era * 146097 + doe - 719468

/-- The calendar reading of an instant's plain (UTC) rendering. -/
def civilOfMicros (t : Int) : CivilTime :=
  let secs := Int.fdiv t 1000000
  let days := Int.fdiv secs 86400
  let sod := Int.emod secs 86400
  let ymd := civilFromDays days
  ⟨ymd.1, ymd.2.1, ymd.2.2, Int.fdiv sod 3600, Int.fdiv (Int.emod sod 3600) 60,
   Int.emod sod 60⟩

/-- An instant's wall clock under the UTC label. -/
def wallClockUTC (t : Int) : CivilTime := civilOfMicros t

/-- An instant's wall clock under the Asia/Kuala_Lumpur label. -/
def wallClockKL (t : Int) : CivilTime := civilOfMicros (t + klOffsetMicros)

/-- Gregorian leap year. -/
def isLeap (y : Int) : Bool :=
  Int.emod y 4 == 0 && (Int.emod y 100 != 0 || Int.emod y 400 == 0)

/-- Days in a month. -/
def daysInMonth (y m : Int) : Int :=
  if m = 2 then (if isLeap y then 29 else 28)
  else if m = 4 ∨ m = 6 ∨ m = 9 ∨ m = 11 then 30
  else 31

/-- Numeric value of a digit character. -/
def dval (c : Char) : Nat := c.toNat - 48

/-- Epoch microseconds of a validated wall-clock reading. -/
def mkTimestamp (y mo d h mi s : Int) : Option Int :=
  if 1 ≤ mo ∧ mo ≤ 12 ∧ 1 ≤ d ∧ d ≤ daysInMonth y mo ∧ 0 ≤ h ∧ h ≤ 23 ∧
      0 ≤ mi ∧ mi ≤ 59 ∧ 0 ≤ s ∧ s ≤ 59 then
    some ((daysFromCivil y mo d * 86400 + h * 3600 + mi * 60 + s) * 1000000)
  else none

/-- Spark `to_timestamp(col)` with no format string: default inference, which
accepts the canonical `yyyy-MM-dd HH:mm:ss` (and bare `yyyy-MM-dd`)
spellings, resolving the wall clock in the session zone (UTC here — the
notebook never sets one, and no claim constrains the resolved instant);
anything else is null.  Spark's inference also tolerates a `T` separator,
fractional seconds and zone suffixes; those spellings never occur in the
claims and are mapped to null. -/
def parseTimestampStr (s : String) : Option Int :=
  match trimChars s.data with
  | [y1, y2, y3, y4, '-', m1, m2, '-', d1, d2] =>
      if [y1, y2, y3, y4, m1, m2, d1, d2].all Char.isDigit then
        mkTimestamp (dval y1 * 1000 + dval y2 * 100 + dval y3 * 10 + dval y4)
          (dval m1 * 10 + dval m2) (dval d1 * 10 + dval d2) 0 0 0
      else none
  | [y1, y2, y3, y4, '-', m1, m2, '-', d1, d2, ' ', h1, h2, ':', i1, i2, ':', s1, s2] =>
      if [y1, y2, y3, y4, m1, m2, d1, d2, h1, h2, i1, i2, s1, s2].all Char.isDigit then
        mkTimestamp (dval y1 * 1000 + dval y2 * 100 + dval y3 * 10 + dval y4)
          (dval m1 * 10 + dval m2) (dval d1 * 10 + dval d2)
          (dval h1 * 10 + dval h2) (dval i1 * 10 + dval i2) (dval s1 * 10 + dval s2)
      else none
  | _ => none

/-- Spark `to_timestamp` on a column value: unparseable or null input is null. -/
def toTimestampVal (v : Val) : Val :=
  match v with
  | Val.str s =>
      match parseTimestampStr s with
      | some t => Val.ts t
      | none => Val.null
  | _ => Val.null

/-! ## The pipeline stages — one per notebook cell -/

/-- Cell `personal-detail-schema`:
`df_raw.withColumn("personal_detail_json",
from_json("personal_detail", personal_schema)).drop("personal_detail")`. -/
def stageParsePersonal (r : Row) : Row :=
  dropCols ["personal_detail"]
    (setCol "personal_detail_json"
      (fromJsonVal personalSchemaFields (getCol r "personal_detail")) r)

/-- Cell `address-schema`: `df.withColumn("address_json",
from_json("personal_detail_json.address", address_schema))`. -/
def stageParseAddress (r : Row) : Row :=
  setCol "address_json"
    (fromJsonVal addressSchemaFields (getField (getCol r "personal_detail_json") "address")) r

/-- Cell `flatten-fields`: the twelve `withColumn` projections followed by
`.drop("personal_detail_json", "address_json")`. -/
def stageFlatten (r : Row) : Row :=
  let r1 := setCol "first" (splitGet (getField (getCol r "personal_detail_json") "person_name") 0) r
  let r2 := setCol "last" (splitGet (getField (getCol r1 "personal_detail_json") "person_name") 1) r1
  let r3 := setCol "gender" (getField (getCol r2 "personal_detail_json") "gender") r2
  let r4 := setCol "dob" (getField (getCol r3 "personal_detail_json") "dob") r3
  let r5 := setCol "street" (getField (getCol r4 "address_json") "street") r4
  let r6 := setCol "city" (getField (getCol r5 "address_json") "city") r5
  let r7 := setCol "state" (getField (getCol r6 "address_json") "state") r6
  let r8 := setCol "zip" (getField (getCol r7 "address_json") "zip") r7
  let r9 := setCol "lat" (castDoubleVal (getField (getCol r8 "personal_detail_json") "lat")) r8
  let r10 := setCol "long" (castDoubleVal (getField (getCol r9 "personal_detail_json") "long")) r9
  let r11 := setCol "city_pop" (castIntVal (getField (getCol r10 "personal_detail_json") "city_pop")) r10
  let r12 := setCol "job" (getField (getCol r11 "personal_detail_json") "job") r11
  dropCols ["personal_detail_json", "address_json"] r12

/-- Cell `timestamp-convert`: `to_timestamp` on `trans_date_trans_time`
and `convert_epoch_microseconds` on the two merchant columns. -/
def stageTimestamps (r : Row) : Row :=
  let r1 := setCol "trans_date_trans_time" (toTimestampVal (getCol r "trans_date_trans_time")) r
  let r2 := setCol "merch_last_update_time"
    (convert_epoch_microseconds (getCol r1 "merch_last_update_time")) r1
  setCol "merch_eff_time" (convert_epoch_microseconds (getCol r2 "merch_eff_time")) r2

/-- Cell `mask-cc`: `df.withColumn("cc_num_masked", sha2(col("cc_num"), 256))`. -/
def stageMask (r : Row) : Row :=
  setCol "cc_num_masked" (sha2Val (getCol r "cc_num")) r

/-- The whole per-row transformation, cells in notebook order. -/
def processRow (r : Row) : Row :=
  stageMask (stageTimestamps (stageFlatten (stageParseAddress (stageParsePersonal r))))

/-- The dataframe chain `df_raw → … → df` of the notebook: each cell maps
its per-row function over the row set. -/
def dfPipeline (rows : List Row) : List Row :=
  ((((rows.map stageParsePersonal).map stageParseAddress).map stageFlatten).map
    stageTimestamps).map stageMask

/-- The end-to-end example record of the specification (§8), as loaded
from its JSON line. -/
def sampleRaw : Row :=
  [("cc_num", Val.str "4111111111111111"),
   ("amt", Val.double 50),
   ("category", Val.str "grocery"),
   ("is_fraud", Val.int 0),
   ("trans_date_trans_time", Val.str "2021-01-01 10:00:00"),
   ("merch_last_update_time", Val.int 1609459200000000),
   ("merch_eff_time", Val.int 1609459200000000),
   ("personal_detail", Val.str "\x7b\"person_name\":\"Doe,John\",\"gender\":\"M\",\"address\":\"\x7b\\\"street\\\":\\\"1 Main St\\\",\\\"city\\\":\\\"KL\\\",\\\"state\\\":\\\"WP\\\",\\\"zip\\\":\\\"50000\\\"\x7d\",\"lat\":\"3.1\",\"long\":\"101.6\",\"city_pop\":\"10000\",\"job\":\"Engineer\",\"dob\":\"1990-01-01\"\x7d")]

/-- Lowercase-hex check for one character. -/
def isLowerHexChar (c : Char) : Bool := hexChars.contains c

/-- A minimal row for exercising the masking cell on a non-null number. -/
def maskDemoRow : Row := [("cc_num", Val.str "4111111111111111")]

/-- A minimal row with a null `cc_num`. -/
def maskNullRow : Row := [("cc_num", Val.null), ("amt", Val.double 50)]

/-- Two rows that agree on `cc_num` but nothing else — for the
determinism-of-masking instance. -/
def maskDemoRowA : Row := [("cc_num", Val.str "4111111111111111"), ("amt", Val.double 1)]

/-- Companion row to `maskDemoRowA` with the same `cc_num`. -/
def maskDemoRowB : Row := [("amt", Val.double 99), ("cc_num", Val.str "4111111111111111")]

/-- A row as it stands before the flatten cell, its `person_name` set to
the specification's example value. -/
def flattenDemoRow : Row :=
  [("personal_detail_json", Val.record
      [("person_name", some "Doe,John"), ("gender", some "M"), ("address", some "x"),
       ("lat", some "3.1"), ("long", some "101.6"), ("city_pop", some "10000"),
       ("job", some "Engineer"), ("dob", some "1990-01-01")]),
   ("address_json", Val.null)]

/-- A row before the flatten cell whose three castable fields are all
non-numeric. -/
def castDemoRow : Row :=
  [("personal_detail_json", Val.record
      [("person_name", some "Doe,John"), ("gender", some "M"), ("address", some "x"),
       ("lat", some "not_a_number"), ("long", some "not_a_number"),
       ("city_pop", some "not_a_number"), ("job", some "Engineer"),
       ("dob", some "1990-01-01")]),
   ("address_json", Val.null)]

/-- A raw row whose `personal_detail` string is not JSON. -/
def malformedPersonalRow : Row :=
  [("cc_num", Val.str "4111111111111111"),
   ("personal_detail", Val.str "not json")]

/-- A row after the personal-detail cell whose nested `address` string is
not JSON. -/
def malformedAddressRow : Row :=
  [("cc_num", Val.str "4111111111111111"),
   ("personal_detail_json", Val.record
      [("person_name", some "Doe,John"), ("gender", some "M"),
       ("address", some "oops\x7b"), ("lat", some "3.1"), ("long", some "101.6"),
       ("city_pop", some "10000"), ("job", some "Engineer"),
       ("dob", some "1990-01-01")])]

/-! ## Column-calculus lemmas

How `withColumn` / `drop` move values and schema membership around — the
workhorses for reading a column out of a chain of stage applications. -/

/-- Reading back through `withColumn`: the set column has the new value,
every other column is untouched. -/
theorem getCol_setCol (n m : String) (v : Val) (r : Row) :
    getCol (setCol n v r) m = if m = n then v else getCol r m := by
  induction r with
  | nil =>
      by_cases h : m = n
      · subst h; simp [setCol, getCol]
      · have h' : ¬n = m := fun hh => h hh.symm
        simp [setCol, getCol, h, h']
  | cons p ps ih =>
      by_cases hp : p.1 = n
      · by_cases h : m = n
        · subst h; simp [setCol, getCol, hp]
        · have h' : ¬n = m := fun hh => h hh.symm
          have hpm : ¬p.1 = m := hp ▸ h'
          simp [setCol, getCol, hp, h, h', hpm]
      · by_cases h : m = n
        · subst h; simp [setCol, getCol, hp, ih]
        · simp [setCol, getCol, hp, h, ih]

/-- Schema membership through `withColumn`: the set name joins the schema,
nothing else changes. -/
theorem hasCol_setCol (n m : String) (v : Val) (r : Row) :
    hasCol (setCol n v r) m = (m == n || hasCol r m) := by
  induction r with
  | nil =>
      by_cases h : m = n
      · subst h; simp [setCol, hasCol]
      · have h' : ¬n = m := fun hh => h hh.symm
        simp [setCol, hasCol, h, h']
  | cons p ps ih =>
      by_cases hp : p.1 = n
      · by_cases h : m = n
        · subst h; simp [setCol, hasCol, hp]
        · have h' : ¬n = m := fun hh => h hh.symm
          have hpm : ¬p.1 = m := hp ▸ h'
          simp [setCol, hasCol, hp, h, h', hpm]
      · by_cases h : m = n
        · subst h; simp [setCol, hasCol, hp, ih]
        · simp [setCol, hasCol, hp, h, ih, Bool.or_left_comm]

/-- Schema membership through `drop`: a column survives iff it was there
and is not dropped. -/
theorem hasCol_dropCols (ns : List String) (m : String) (r : Row) :
    hasCol (dropCols ns r) m = (!ns.contains m && hasCol r m) := by
  induction r with
  | nil => simp [dropCols, hasCol]
  | cons p ps ih =>
      by_cases h2 : p.1 = m
      · subst h2
        by_cases hmem : p.1 ∈ ns <;>
          simp_all [dropCols, hasCol, List.filter_cons]
      · have hb : (p.1 == m) = false := by simp [h2]
        simp [dropCols] at ih
        by_cases hmem : p.1 ∈ ns
        · simp [dropCols, hasCol, List.filter_cons, hmem, hb, ih]
        · simp [dropCols, hasCol, List.filter_cons, hmem, hb, ih]

/-- Reading a column `drop` does not touch. -/
theorem getCol_dropCols (ns : List String) (m : String) (r : Row)
    (h : ns.contains m = false) :
    getCol (dropCols ns r) m = getCol r m := by
  induction r with
  | nil => simp [dropCols]
  | cons p ps ih =>
      by_cases h2 : p.1 = m
      · subst h2
        have hmem : ¬p.1 ∈ ns := by simpa using h
        simp_all [dropCols, getCol, List.filter_cons]
      · by_cases hmem : p.1 ∈ ns <;>
          simp_all [dropCols, getCol, List.filter_cons]

/-! ## Shape of the hex digest -/

/-- One word renders as eight characters. -/
theorem wordHex_length (w : Nat) : (wordHex w).length = 8 := rfl

/-- A rendered digest is 64 characters long. -/
theorem digestHex_length (d : Words8) : (digestHex d).length = 64 := by
  simp [digestHex, wordHex, String.length]

/-- Every digit the renderer emits is lowercase hex. -/
theorem hexChar_lowerHex (n : Nat) : isLowerHexChar (hexChar n) = true := by
  have h : n % 16 < 16 := Nat.mod_lt _ (by norm_num)
  unfold hexChar
  generalize n % 16 = k at h
  interval_cases k <;> decide

/-- Every character of a rendered digest is lowercase hex. -/
theorem digestHex_lowerHex (d : Words8) :
    (digestHex d).data.all isLowerHexChar = true := by
  simp [digestHex, wordHex, hexChar_lowerHex]

/-! ## The claims -/

/-- The dataframe chain consumes its rows one at a time. -/
theorem dfPipeline_cons (r : Row) (rs : List Row) :
    dfPipeline (r :: rs) = processRow r :: dfPipeline rs := by
  simp only [dfPipeline, List.map_cons]
  rfl

/-- An empty row set stays empty. -/
theorem dfPipeline_nil : dfPipeline [] = [] := rfl

/-- C4: the whole pipeline is a per-row map — every output row comes from
exactly one input row in position (no fan-out, no fan-in, no stage drops a
row) — so the row count is preserved for every input row set. -/
theorem c4_row_count_preserved (rows : List Row) :
    dfPipeline rows = rows.map processRow ∧
    (dfPipeline rows).length = rows.length := by
  have hmap : dfPipeline rows = rows.map processRow := by
    induction rows with
    | nil => rw [List.map_nil, dfPipeline_nil]
    | cons r rs ih => rw [dfPipeline_cons, ih, List.map_cons]
  exact ⟨hmap, by rw [hmap, List.length_map]⟩

/-- C9: the transformation is deterministic — re-running the pipeline on
the same input reproduces the same output, and the masking stage depends
only on the `cc_num` value, so equal identifiers always hash to equal
`cc_num_masked` values. -/
theorem c9_deterministic :
    (∀ rows : List Row, dfPipeline rows = dfPipeline rows) ∧
    (∀ r₁ r₂ : Row, getCol r₁ "cc_num" = getCol r₂ "cc_num" →
      getCol (stageMask r₁) "cc_num_masked" = getCol (stageMask r₂) "cc_num_masked") := by
  refine ⟨fun _ => rfl, fun r₁ r₂ h => ?_⟩
  simp [stageMask, getCol_setCol, h]

/-- Witness for C9: two rows that agree only on `cc_num` get the same
masked value. -/
theorem c9_deterministic_witness :
    getCol maskDemoRowA "cc_num" = getCol maskDemoRowB "cc_num" ∧
    getCol (stageMask maskDemoRowA) "cc_num_masked" =
      getCol (stageMask maskDemoRowB) "cc_num_masked" :=
  ⟨by decide, c9_deterministic.2 maskDemoRowA maskDemoRowB (by decide)⟩

/-- C10: a null `cc_num` is masked to a null `cc_num_masked`; the column
is still added to the schema, the row survives the stage, and nothing
errors. -/
theorem c10_null_ccnum_masks_to_null (r : Row)
    (h : getCol r "cc_num" = Val.null) :
    getCol (stageMask r) "cc_num_masked" = Val.null ∧
    hasCol (stageMask r) "cc_num_masked" = true ∧
    (List.map stageMask [r]).length = 1 := by
  refine ⟨?_, ?_, rfl⟩
  · simp [stageMask, getCol_setCol, h, sha2Val]
  · simp [stageMask, hasCol_setCol]

/-- Witness for C10 at a concrete row with a null `cc_num`. -/
theorem c10_null_ccnum_masks_to_null_witness :
    getCol maskNullRow "cc_num" = Val.null ∧
    (getCol (stageMask maskNullRow) "cc_num_masked" = Val.null ∧
      hasCol (stageMask maskNullRow) "cc_num_masked" = true ∧
      (List.map stageMask [maskNullRow]).length = 1) :=
  ⟨by decide, c10_null_ccnum_masks_to_null maskNullRow (by decide)⟩

/-- C7: for a non-null `cc_num`, the masking cell stores the SHA-256 of
the identifier string, rendered as a 64-character lowercase-hex string, in
`cc_num_masked`. -/
theorem c7_mask_is_sha256_hex (r : Row) (s : String)
    (h : getCol r "cc_num" = Val.str s) :
    getCol (stageMask r) "cc_num_masked" = Val.str (sha256hex s) ∧
    (sha256hex s).length = 64 ∧
    (sha256hex s).data.all isLowerHexChar = true := by
  refine ⟨?_, digestHex_length _, digestHex_lowerHex _⟩
  simp [stageMask, getCol_setCol, h, sha2Val]

/-- Witness for C7 at the specification's example card number. -/
theorem c7_mask_is_sha256_hex_witness :
    getCol maskDemoRow "cc_num" = Val.str "4111111111111111" ∧
    (getCol (stageMask maskDemoRow) "cc_num_masked" =
        Val.str (sha256hex "4111111111111111") ∧
      (sha256hex "4111111111111111").length = 64 ∧
      (sha256hex "4111111111111111").data.all isLowerHexChar = true) :=
  ⟨by decide, c7_mask_is_sha256_hex maskDemoRow "4111111111111111" (by decide)⟩

/-- C3: `first` and `last` are the elements at index 0 and 1 of
`person_name` split on the class `[,@/]`, a missing index giving null; in
particular `"Doe,John"` splits into `first = "Doe"`, `last = "John"`, and
a delimiter-free `"OnlyOneName"` keeps the whole string as `first` with a
null `last`. -/
theorem c3_name_split (r : Row) (s : String)
    (h : getField (getCol r "personal_detail_json") "person_name" = Val.str s) :
    getCol (stageFlatten r) "first" = splitGet (Val.str s) 0 ∧
    getCol (stageFlatten r) "last" = splitGet (Val.str s) 1 ∧
    splitGet (Val.str "Doe,John") 0 = Val.str "Doe" ∧
    splitGet (Val.str "Doe,John") 1 = Val.str "John" ∧
    splitGet (Val.str "OnlyOneName") 0 = Val.str "OnlyOneName" ∧
    splitGet (Val.str "OnlyOneName") 1 = Val.null := by
  refine ⟨?_, ?_, by decide, by decide, by decide, by decide⟩ <;>
    simp [stageFlatten, getCol_setCol, getCol_dropCols, h]

/-- Witness for C3 on a row carrying the example name. -/
theorem c3_name_split_witness :
    getField (getCol flattenDemoRow "personal_detail_json") "person_name" =
      Val.str "Doe,John" ∧
    (getCol (stageFlatten flattenDemoRow) "first" = splitGet (Val.str "Doe,John") 0 ∧
      getCol (stageFlatten flattenDemoRow) "last" = splitGet (Val.str "Doe,John") 1 ∧
      splitGet (Val.str "Doe,John") 0 = Val.str "Doe" ∧
      splitGet (Val.str "Doe,John") 1 = Val.str "John" ∧
      splitGet (Val.str "OnlyOneName") 0 = Val.str "OnlyOneName" ∧
      splitGet (Val.str "OnlyOneName") 1 = Val.null) :=
  ⟨by decide, c3_name_split flattenDemoRow "Doe,John" (by decide)⟩

/-- C6: a non-numeric string in `lat`, `long` or `city_pop` casts to a
null in the corresponding output column, and the row survives the flatten
stage. -/
theorem c6_cast_failure_null (r : Row) (sLat sLong sPop : String) :
    (getField (getCol r "personal_detail_json") "lat" = Val.str sLat →
      castDoubleStr sLat = none → getCol (stageFlatten r) "lat" = Val.null) ∧
    (getField (getCol r "personal_detail_json") "long" = Val.str sLong →
      castDoubleStr sLong = none → getCol (stageFlatten r) "long" = Val.null) ∧
    (getField (getCol r "personal_detail_json") "city_pop" = Val.str sPop →
      castIntStr sPop = none → getCol (stageFlatten r) "city_pop" = Val.null) ∧
    castIntStr "not_a_number" = none ∧
    (List.map stageFlatten [r]).length = 1 := by
  refine ⟨fun h hc => ?_, fun h hc => ?_, fun h hc => ?_, by decide, rfl⟩ <;>
    simp [stageFlatten, getCol_setCol, getCol_dropCols, h, hc, castDoubleVal, castIntVal]

/-- Witness for C6: all three casts null out on `"not_a_number"`. -/
theorem c6_cast_failure_null_witness :
    getField (getCol castDemoRow "personal_detail_json") "city_pop" =
      Val.str "not_a_number" ∧
    castIntStr "not_a_number" = none ∧
    getCol (stageFlatten castDemoRow) "lat" = Val.null ∧
    getCol (stageFlatten castDemoRow) "long" = Val.null ∧
    getCol (stageFlatten castDemoRow) "city_pop" = Val.null :=
  ⟨by decide, by decide,
   (c6_cast_failure_null castDemoRow "not_a_number" "not_a_number" "not_a_number").1
     (by decide) (by decide),
   (c6_cast_failure_null castDemoRow "not_a_number" "not_a_number" "not_a_number").2.1
     (by decide) (by decide),
   (c6_cast_failure_null castDemoRow "not_a_number" "not_a_number" "not_a_number").2.2.1
     (by decide) (by decide)⟩

/-- C5: a `personal_detail` string that is not a well-formed JSON object
decodes to the null struct — every schema field of
`personal_detail_json` reads null — and likewise for a malformed nested
`address` string; the row is kept by both parser stages (the stages are
total, so nothing can raise). -/
theorem c5_malformed_json_null_record (r : Row) (s : String) :
    (getCol r "personal_detail" = Val.str s → parseTopObject s = none →
      getCol (stageParsePersonal r) "personal_detail_json" = Val.null ∧
      getField (getCol (stageParsePersonal r) "personal_detail_json") "person_name" = Val.null ∧
      getField (getCol (stageParsePersonal r) "personal_detail_json") "gender" = Val.null ∧
      getField (getCol (stageParsePersonal r) "personal_detail_json") "address" = Val.null ∧
      getField (getCol (stageParsePersonal r) "personal_detail_json") "lat" = Val.null ∧
      getField (getCol (stageParsePersonal r) "personal_detail_json") "long" = Val.null ∧
      getField (getCol (stageParsePersonal r) "personal_detail_json") "city_pop" = Val.null ∧
      getField (getCol (stageParsePersonal r) "personal_detail_json") "job" = Val.null ∧
      getField (getCol (stageParsePersonal r) "personal_detail_json") "dob" = Val.null) ∧
    (getField (getCol r "personal_detail_json") "address" = Val.str s → parseTopObject s = none →
      getCol (stageParseAddress r) "address_json" = Val.null ∧
      getField (getCol (stageParseAddress r) "address_json") "street" = Val.null ∧
      getField (getCol (stageParseAddress r) "address_json") "city" = Val.null ∧
      getField (getCol (stageParseAddress r) "address_json") "state" = Val.null ∧
      getField (getCol (stageParseAddress r) "address_json") "zip" = Val.null) ∧
    (List.map stageParsePersonal [r]).length = 1 ∧
    (List.map stageParseAddress [r]).length = 1 := by
  refine ⟨fun h hp => ?_, fun h hp => ?_, rfl, rfl⟩
  · have hnull : getCol (stageParsePersonal r) "personal_detail_json" = Val.null := by
      simp [stageParsePersonal, getCol_setCol, getCol_dropCols, h, fromJsonVal,
        decodeJsonObject, hp]
    exact ⟨hnull, by rw [hnull]; rfl, by rw [hnull]; rfl, by rw [hnull]; rfl,
      by rw [hnull]; rfl, by rw [hnull]; rfl, by rw [hnull]; rfl, by rw [hnull]; rfl,
      by rw [hnull]; rfl⟩
  · have hnull : getCol (stageParseAddress r) "address_json" = Val.null := by
      simp [stageParseAddress, getCol_setCol, h, fromJsonVal, decodeJsonObject, hp]
    exact ⟨hnull, by rw [hnull]; rfl, by rw [hnull]; rfl, by rw [hnull]; rfl,
      by rw [hnull]; rfl⟩

/-- Witness for C5 on two concretely malformed strings. -/
theorem c5_malformed_json_null_record_witness :
    getCol malformedPersonalRow "personal_detail" = Val.str "not json" ∧
    parseTopObject "not json" = none ∧
    getCol (stageParsePersonal malformedPersonalRow) "personal_detail_json" = Val.null ∧
    getField (getCol malformedAddressRow "personal_detail_json") "address" =
      Val.str "oops\x7b" ∧
    parseTopObject "oops\x7b" = none ∧
    getCol (stageParseAddress malformedAddressRow) "address_json" = Val.null :=
  ⟨by decide, by decide,
   ((c5_malformed_json_null_record malformedPersonalRow "not json").1
     (by decide) (by decide)).1,
   by decide, by decide,
   ((c5_malformed_json_null_record malformedAddressRow "oops\x7b").2.1
     (by decide) (by decide)).1⟩

/-- C8: `personal_detail` leaves the schema at the personal-detail cell
and never returns; `personal_detail_json` and `address_json` leave it at
the flatten cell; none of the three is present in any later stage's rows. -/
theorem c8_parsed_columns_dropped (r : Row) :
    hasCol (stageParsePersonal r) "personal_detail" = false ∧
    hasCol (stageParseAddress (stageParsePersonal r)) "personal_detail" = false ∧
    hasCol (stageFlatten (stageParseAddress (stageParsePersonal r))) "personal_detail" = false ∧
    hasCol (stageFlatten (stageParseAddress (stageParsePersonal r))) "personal_detail_json" = false ∧
    hasCol (stageFlatten (stageParseAddress (stageParsePersonal r))) "address_json" = false ∧
    hasCol (stageTimestamps (stageFlatten (stageParseAddress (stageParsePersonal r)))) "personal_detail" = false ∧
    hasCol (stageTimestamps (stageFlatten (stageParseAddress (stageParsePersonal r)))) "personal_detail_json" = false ∧
    hasCol (stageTimestamps (stageFlatten (stageParseAddress (stageParsePersonal r)))) "address_json" = false ∧
    hasCol (processRow r) "personal_detail" = false ∧
    hasCol (processRow r) "personal_detail_json" = false ∧
    hasCol (processRow r) "address_json" = false := by
  refine ⟨?_, ?_, ?_, ?_, ?_, ?_, ?_, ?_, ?_, ?_, ?_⟩ <;>
    simp [processRow, stageParsePersonal, stageParseAddress, stageFlatten,
      stageTimestamps, stageMask, hasCol_setCol, hasCol_dropCols]

/-- C2, counterexample: on the specification's own end-to-end record the
final row does contain `cc_num_masked` — but it also still contains the
original `cc_num` column (with its raw value), because the mask cell only
adds a column and nothing ever drops `cc_num`. -/
theorem c2_counterexample_ccnum_kept :
    hasCol (processRow sampleRaw) "cc_num_masked" = true ∧
    hasCol (processRow sampleRaw) "cc_num" = true ∧
    getCol (processRow sampleRaw) "cc_num" = Val.str "4111111111111111" := by
  decide

/-- C2 as amended: every final row carries `cc_num_masked` and all the
derived flat columns, and none of `personal_detail`,
`personal_detail_json`, `address_json` — but the original `cc_num` column
is never dropped: it is present in the output exactly when it was present
in the input. -/
theorem c2_schema_amended (r : Row) :
    hasCol (processRow r) "cc_num_masked" = true ∧
    hasCol (processRow r) "first" = true ∧
    hasCol (processRow r) "last" = true ∧
    hasCol (processRow r) "gender" = true ∧
    hasCol (processRow r) "dob" = true ∧
    hasCol (processRow r) "street" = true ∧
    hasCol (processRow r) "city" = true ∧
    hasCol (processRow r) "state" = true ∧
    hasCol (processRow r) "zip" = true ∧
    hasCol (processRow r) "lat" = true ∧
    hasCol (processRow r) "long" = true ∧
    hasCol (processRow r) "city_pop" = true ∧
    hasCol (processRow r) "job" = true ∧
    hasCol (processRow r) "personal_detail" = false ∧
    hasCol (processRow r) "personal_detail_json" = false ∧
    hasCol (processRow r) "address_json" = false ∧
    hasCol (processRow r) "cc_num" = hasCol r "cc_num" := by
  refine ⟨?_, ?_, ?_, ?_, ?_, ?_, ?_, ?_, ?_, ?_, ?_, ?_, ?_, ?_, ?_, ?_, ?_⟩ <;>
    simp [processRow, stageParsePersonal, stageParseAddress, stageFlatten,
      stageTimestamps, stageMask, hasCol_setCol, hasCol_dropCols]

/-- C1, counterexample: for `merch_eff_time = 1609459200000000` (the
instant 2021-01-01T00:00:00 UTC) the normalizer emits the timestamp
1609488000000000, and neither its plain (UTC) rendering nor its
Asia/Kuala_Lumpur rendering reads 2021-01-01 00:00:00 — the wall-clock
digits are shifted, not preserved. -/
theorem c1_counterexample_digits_shift :
    getCol (stageTimestamps sampleRaw) "merch_eff_time" = Val.ts 1609488000000000 ∧
    wallClockUTC 1609488000000000 ≠ CivilTime.mk 2021 1 1 0 0 0 ∧
    wallClockKL 1609488000000000 ≠ CivilTime.mk 2021 1 1 0 0 0 := by
  have hc : convert_epoch_microseconds (Val.int 1609459200000000) =
      Val.ts 1609488000000000 := by
    norm_num [convert_epoch_microseconds, secondsToMicros, fromUtcTimestampMicros,
      ratTrunc, klOffsetMicros]
  refine ⟨?_, by decide, by decide⟩
  simp [stageTimestamps, getCol_setCol, getCol, sampleRaw, hc]

/-- C1 as amended: `from_utc_timestamp` performs the conversion it
documents, not a relabeling — on input 1609459200000000 both merchant
columns become the timestamp 1609488000000000, whose plain rendering
reads 2021-01-01 08:00:00, i.e. exactly the Asia/Kuala_Lumpur (+8:00)
local time of the input instant; the digits shift by the zone offset
instead of staying 00:00:00. -/
theorem c1_amended_utc_to_kl_shift (r : Row)
    (hEff : getCol r "merch_eff_time" = Val.int 1609459200000000)
    (hLast : getCol r "merch_last_update_time" = Val.int 1609459200000000) :
    getCol (stageTimestamps r) "merch_eff_time" = Val.ts 1609488000000000 ∧
    getCol (stageTimestamps r) "merch_last_update_time" = Val.ts 1609488000000000 ∧
    wallClockUTC 1609488000000000 = CivilTime.mk 2021 1 1 8 0 0 ∧
    wallClockKL 1609459200000000 = CivilTime.mk 2021 1 1 8 0 0 ∧
    wallClockUTC 1609459200000000 = CivilTime.mk 2021 1 1 0 0 0 := by
  have hc : convert_epoch_microseconds (Val.int 1609459200000000) =
      Val.ts 1609488000000000 := by
    norm_num [convert_epoch_microseconds, secondsToMicros, fromUtcTimestampMicros,
      ratTrunc, klOffsetMicros]
  refine ⟨?_, ?_, by decide, by decide, by decide⟩ <;>
    simp [stageTimestamps, getCol_setCol, hEff, hLast, hc]

/-- Witness for the amended C1 on the end-to-end example row. -/
theorem c1_amended_utc_to_kl_shift_witness :
    getCol sampleRaw "merch_eff_time" = Val.int 1609459200000000 ∧
    getCol sampleRaw "merch_last_update_time" = Val.int 1609459200000000 ∧
    (getCol (stageTimestamps sampleRaw) "merch_eff_time" = Val.ts 1609488000000000 ∧
      getCol (stageTimestamps sampleRaw) "merch_last_update_time" = Val.ts 1609488000000000 ∧
      wallClockUTC 1609488000000000 = CivilTime.mk 2021 1 1 8 0 0 ∧
      wallClockKL 1609459200000000 = CivilTime.mk 2021 1 1 8 0 0 ∧
      wallClockUTC 1609459200000000 = CivilTime.mk 2021 1 1 0 0 0) :=
  ⟨by decide, by decide,
   c1_amended_utc_to_kl_shift sampleRaw (by decide) (by decide)⟩

end FraudPipeline
